import Mathlib

/-!
Verification development for the cookie/header tracking script
(`automated_cookie_eval.py`).  The script drives a browser session:
it logs messages to file and console, computes request header sizes,
periodically rewrites cookie expiry fields, and runs a browsing loop
that each tick either modifies cookies, returns to the start URL,
refreshes, or clicks a random link.

The embedding below translates the pure logic of the script directly;
browser operations (navigation, cookie reads, element queries) are
modelled as oracle inputs of type `Except String α`, mirroring which
calls sit inside a Python `try/except` and which do not.
-/

set_option autoImplicit false

/-- Substring test on character lists: does `pat` occur as a contiguous
run inside `s`?  Models the Python `pat in s` operator for strings. -/
def subAt : List Char → List Char → Bool
  | pat, [] => pat.isEmpty
  | pat, l@(_ :: rest) => pat.isPrefixOf l || subAt pat rest

/-- Models the Python membership test `pat in s` on strings. -/
def strContains (s pat : String) : Bool :=
  subAt pat.toList s.toList

/-- Models Python `s.startswith(pat)`.  (Defined through list prefix
testing, which evaluates by structural recursion.) -/
def starts_with (s pat : String) : Bool :=
  pat.toList.isPrefixOf s.toList

/-- Models Python `s.lower()` for the ASCII text the script handles. -/
def str_lower (s : String) : String :=
  String.mk (s.toList.map Char.toLower)

/-- Models Python `s.rstrip(chr 47)`: remove every trailing slash. -/
def rstrip_slash (s : String) : String :=
  String.mk ((s.toList.reverse.dropWhile (fun c => c == '/')).reverse)

/-- Models Python `s.lstrip(chr 47)`: remove every leading slash. -/
def lstrip_slash (s : String) : String :=
  String.mk (s.toList.dropWhile (fun c => c == '/'))

/-- Models Python `s.split(pat, 1)[1]`: everything after the first
occurrence of `pat` (empty when `pat` does not occur). -/
def afterFirst (s pat : String) : String :=
  match s.splitOn pat with
  | [] => ""
  | [_] => ""
  | _ :: rest => String.intercalate pat rest

/-- Models Python `s.split(chr 10)[0]`: the text before the first
newline character. -/
def firstLineOf (s : String) : String :=
  s.takeWhile (fun c => c ≠ '\n')

/-! ### calculate_header_size (source lines 40-55)

Python iterates over a header dict, adding UTF-8 key length, UTF-8
length of `str(value)`, 2 for the separator and 2 for the CRLF per
entry, plus a final 2-byte CRLF — but returns 0 early when the mapping
is falsy (None or empty).  Playwright header values are strings, so
`str(value)` is the value itself; the mapping is modelled as an
association list. -/

/-- Byte size of one header line fragment: key + value + ": " + CRLF. -/
def header_entry_size (kv : String × String) : Nat :=
  kv.1.utf8ByteSize + kv.2.utf8ByteSize + 2 + 2

/-- Models `calculate_header_size`. -/
def calculate_header_size (headers : List (String × String)) : Nat :=
  if headers.isEmpty then 0
  else (headers.foldl (fun acc kv => acc + header_entry_size kv) 0) + 2

/-! ### log_message (source lines 57-86)

Writes every message to the log file; prints to the console when the
message contains one of the URL indicator substrings (first matching
indicator wins, and only the text between that indicator and the next
newline is echoed), and otherwise when the message contains the
session-complete banner or the substring "Starting ". -/

/-- The url_indicators list from the source. -/
def url_indicators : List String :=
  ["Navigating to ",
   "Returning to starting page: ",
   "Current URL: ",
   "Clicking link: ",
   "Starting automated browsing at "]

/-- Models `log_message`: given the formatted timestamp and the message,
returns (lines appended to the log file, lines printed to the console). -/
def log_message (timestamp message : String) : List String × List String :=
  let log_entry := "[" ++ timestamp ++ "] " ++ message
  let fileLines := [log_entry]
  let consoleLines :=
    if url_indicators.any (fun ind => strContains message ind) then
      match url_indicators.find? (fun ind => strContains message ind) with
      | some ind =>
          let url_part := firstLineOf (afterFirst message ind)
          ["[" ++ timestamp ++ "] " ++ ind ++ url_part]
      | none => []
    else if strContains message "==== BROWSING SESSION COMPLETE ====" ||
            strContains message "Starting " then
      [log_entry]
    else []
  (fileLines, consoleLines)

/-! ### Cookie model and modify_auth_cookies (source lines 378-426)

A Playwright cookie is a dict; the script inspects the `name` key,
tests membership of the `expires` key, and copies the dict wholesale.
We model a cookie as its name, its optional expires entry, and an
association list for every other field (so a copy that only changes
`expires` provably keeps every other field). -/

structure Cookie where
  name : String
  expires : Option Int
  rest : List (String × String)
  deriving DecidableEq, Repr

/-- The modified copy built in the loop body: `cookie.copy()` followed
by setting the expires entry to 0. -/
def zero_expires (c : Cookie) : Cookie :=
  { c with expires := some 0 }

/-- Result of one `modify_auth_cookies` call: the context cookie set
afterwards, whether `clear_cookies` ran, the batches passed to
`add_cookies`, whether the page reload was attempted, and the log. -/
structure ModifyResult where
  cookies : List Cookie
  cleared : Bool
  addedBatches : List (List Cookie)
  reloaded : Bool
  log : List String
  deriving DecidableEq, Repr

/-- Models `modify_auth_cookies` acting on the snapshot returned by
`context.cookies()`.  The source first collects a zeroed copy of every
cookie that has an `expires` key; when that list is non-empty it clears
all cookies, re-adds the snapshot cookies whose NAME is not among the
modified names, then adds the modified copies, and reloads. -/
def modify_auth_cookies (all_cookies : List Cookie) : ModifyResult :=
  let withExpiry := all_cookies.filter (fun c => c.expires.isSome)
  let modified_cookies := withExpiry.map zero_expires
  let modLog := withExpiry.map (fun c => "Reset xxpires for cookie: " ++ c.name)
  let banner := "==== MODIFYING AUTH COOKIES ===="
  if modified_cookies.isEmpty then
    { cookies := all_cookies
      cleared := false
      addedBatches := []
      reloaded := false
      log := banner :: modLog ++ ["No auth cookies found to modify"] }
  else
    let cookie_names_to_modify := modified_cookies.map (fun c => c.name)
    let original_cookies_to_keep :=
      all_cookies.filter (fun c => !(cookie_names_to_modify.contains c.name))
    { cookies := original_cookies_to_keep ++ modified_cookies
      cleared := true
      addedBatches :=
        (if original_cookies_to_keep.isEmpty then [] else [original_cookies_to_keep])
          ++ [modified_cookies]
      reloaded := true
      log := banner :: modLog
        ++ ["Successfully modified auth cookies",
            "Reloading page to apply cookie changes"] }

/-- The cookie set the specification describes after a modification
pass: every snapshot cookie without an expires field unchanged, plus a
zeroed copy of every snapshot cookie with one.  (Written from the
claim, to compare against `modify_auth_cookies`.) -/
def spec_readded (all_cookies : List Cookie) : List Cookie :=
  all_cookies.filter (fun c => c.expires.isNone)
    ++ (all_cookies.filter (fun c => c.expires.isSome)).map zero_expires

/-! ### Link filtering (source lines 547-553)

For each anchor the loop reads the href attribute (possibly absent) and
keeps the link when the href is truthy (non-None, non-empty) and no
blocklisted word occurs in its lower-cased text. -/

/-- The bad_link_words list from the source. -/
def bad_link_words : List String :=
  ["install", "uninstall", "forgot", "google"]

/-- The filter condition `href and not any(bad_word in href.lower()
for bad_word in bad_link_words)`: `none` and the empty string are falsy. -/
def link_kept (href : Option String) : Bool :=
  match href with
  | none => false
  | some h =>
      h ≠ "" && !(bad_link_words.any (fun w => strContains (str_lower h) w))

/-- The filtered_links accumulation: hrefs of the anchors that pass the
filter, in page order.  (The source stores (element, href) pairs; the
element is only used to click, which the tick model drives through an
oracle, so we keep the href.) -/
def filtered_links (hrefs : List (Option String)) : List String :=
  match hrefs with
  | [] => []
  | none :: rest => filtered_links rest
  | some h :: rest =>
      if link_kept (some h) then h :: filtered_links rest
      else filtered_links rest

/-- Models the per-anchor `link.get_attribute` calls (source line 551):
each read may raise; a raised exception is NOT caught by any handler in
the loop, so the first error propagates. -/
def get_hrefs (raw : List (Except String (Option String))) :
    Except String (List (Option String)) :=
  match raw with
  | [] => .ok []
  | r :: rest =>
      match r with
      | .error e => .error e
      | .ok h =>
          match get_hrefs rest with
          | .error e => .error e
          | .ok hs => .ok (h :: hs)

/-! ### Click-failure fallback URL (source lines 570-575)

`full_url = href if href.startswith(http) else
f-string of url.rstrip(slash) / href.lstrip(slash)` where `url` is the
start URL parameter of `browse_and_track_cookies`. -/

/-- Models the `full_url` expression built when a click fails. -/
def full_url (url href : String) : String :=
  if starts_with href "http" then href
  else rstrip_slash url ++ "/" ++ lstrip_slash href

/-! ### One tick of the browsing loop (source lines 502-630)

The loop body is modelled as a function of the previous timer state and
an oracle giving the outcome of every external call of that iteration.
Calls inside a `try/except` swallow their error (logging it); calls
outside any handler propagate, making the whole tick return `.error`. -/

/-- The action categories of the scheduler. -/
inductive SchedAction where
  | modifyCookies
  | returnToStart
  | refreshPage
  | clickLink (href : String)
  deriving DecidableEq, Repr

/-- Configuration of `browse_and_track_cookies` used by the loop. -/
structure Params where
  url : String
  cookieModInterval : Int
  returnInterval : Int
  refreshInterval : Int
  deriving DecidableEq, Repr

/-- The timer state carried across iterations (last_cookie_mod_time,
last_return_time, last_refresh_time). -/
structure TickState where
  lastCookieMod : Int
  lastReturn : Int
  lastRefresh : Int
  deriving DecidableEq, Repr

/-- Oracle for one iteration: the sampled clock, the current page URL,
and the outcome of each external call the iteration can make. -/
structure TickOracle where
  currentTime : Int
  pageUrl : String
  /-- context.cookies() at line 509 — outside any try/except. -/
  currentCookies : Except String (List Cookie)
  /-- modify_auth_cookies() at line 518 — inside try/except. -/
  modifyResult : Except String Unit
  /-- page.goto(url) at line 527 — inside try/except. -/
  returnGoto : Except String Unit
  /-- page.reload() at line 536 — inside try/except. -/
  refreshReload : Except String Unit
  /-- query_selector_all at line 543 plus the get_attribute read for
  each anchor at line 551 — outside any try/except. -/
  queryLinks : Except String (List (Except String (Option String)))
  /-- The value returned by random.randint at line 558. -/
  choice : Nat
  /-- link.click() and the following wait at lines 565-567 — inside
  try/except. -/
  clickAndWait : Except String Unit
  /-- page.goto(full_url) at line 575 — inside the inner try/except. -/
  fallbackGoto : Except String Unit
  /-- The end-of-iteration instrumentation reload block at lines
  594-612 — fully guarded. -/
  finalReload : Except String Unit
  deriving Repr

/-- What one tick produces: the next timer state, the scheduler actions
performed, the URLs passed to page.goto, and the log lines. -/
structure TickResult where
  state : TickState
  actions : List SchedAction
  navTargets : List String
  log : List String
  deriving DecidableEq, Repr

/-- Models `check_and_handle_cognito_login` (source lines 360-366): a
URL test; `handle_cognito_login` itself catches every exception, so the
call never raises. -/
def check_and_handle_cognito_login (currentUrl : String) : Bool :=
  strContains currentUrl "awscognito" || strContains currentUrl "amazoncognito"

/-- The log lines of the guarded end-of-iteration reload (lines
594-612); its errors are caught and logged.  The header-size and
cookie-growth logging of lines 614-624 is pure instrumentation and is
elided. -/
def end_of_tick (o : TickOracle) : List String :=
  match o.finalReload with
  | .ok _ => []
  | .error e => ["Error during page reload: " ++ e]

/-- The else-branch of the scheduler once the anchors have been
filtered (source lines 556-582): pick index `choice` among the first
ten filtered links, click it unless the href is empty or starts with
a fragment or javascript marker; on click failure fall back to a
direct page.goto of `full_url`.  Returns (actions, goto targets, log). -/
def click_branch (url : String) (filtered : List String) (choice : Nat)
    (clickResult fallbackResult : Except String Unit) :
    List SchedAction × List String × List String :=
  if filtered.isEmpty then
    ([], [], ["No suitable links found after filtering out install/uninstall links"])
  else
    let href := filtered.getD choice ""
    if href != "" && !(starts_with href "#") && !(starts_with href "javascript:") then
      match clickResult with
      | .ok _ => ([SchedAction.clickLink href], [], ["Clicking link: " ++ href])
      | .error e =>
          let fu := full_url url href
          match fallbackResult with
          | .ok _ =>
              ([SchedAction.clickLink href], [fu],
               ["Clicking link: " ++ href, "Error clicking link: " ++ e])
          | .error e2 =>
              ([SchedAction.clickLink href], [fu],
               ["Clicking link: " ++ href, "Error clicking link: " ++ e,
                "Error navigating to link: " ++ e2])
    else ([], [], [])

/-- Models one iteration of the `while` loop (source lines 502-630).
The unguarded cookie snapshot and anchor/attribute reads propagate
errors; every branch action is guarded and its error is swallowed. -/
def browse_tick (p : Params) (st : TickState) (o : TickOracle) :
    Except String TickResult :=
  let _cognito := check_and_handle_cognito_login o.pageUrl
  match o.currentCookies with
  | .error e => .error e
  | .ok current_cookies =>
  let baseLog := ["==== CURRENT REQUEST ====",
                  "Current URL: " ++ o.pageUrl,
                  "Cookies count: " ++ toString current_cookies.length]
  if o.currentTime - st.lastCookieMod ≥ p.cookieModInterval then
    let branchLog :=
      match o.modifyResult with
      | .ok _ => ["Time to modify auth cookies"]
      | .error e => ["Time to modify auth cookies",
                     "Error modifying auth cookies: " ++ e]
    .ok { state := { st with lastCookieMod := o.currentTime }
          actions := [SchedAction.modifyCookies]
          navTargets := []
          log := baseLog ++ branchLog ++ end_of_tick o }
  else if o.currentTime - st.lastReturn ≥ p.returnInterval then
    let branchLog :=
      match o.returnGoto with
      | .ok _ => ["Returning to starting page: " ++ p.url]
      | .error e => ["Returning to starting page: " ++ p.url,
                     "Error returning to starting page: " ++ e]
    .ok { state := { st with lastReturn := o.currentTime }
          actions := [SchedAction.returnToStart]
          navTargets := [p.url]
          log := baseLog ++ branchLog ++ end_of_tick o }
  else if o.currentTime - st.lastRefresh ≥ p.refreshInterval then
    let branchLog :=
      match o.refreshReload with
      | .ok _ => ["Refreshing current page..."]
      | .error e => ["Refreshing current page...",
                     "Error refreshing page: " ++ e]
    .ok { state := { st with lastRefresh := o.currentTime }
          actions := [SchedAction.refreshPage]
          navTargets := []
          log := baseLog ++ branchLog ++ end_of_tick o }
  else
    match o.queryLinks with
    | .error e => .error e
    | .ok raw =>
    if raw.isEmpty then
      .ok { state := st, actions := [], navTargets := []
            log := baseLog ++ end_of_tick o }
    else
      match get_hrefs raw with
      | .error e => .error e
      | .ok hrefs =>
      let filtered := filtered_links hrefs
      let r := click_branch p.url filtered o.choice o.clickAndWait o.fallbackGoto
      .ok { state := st, actions := r.1, navTargets := r.2.1
            log := baseLog ++ r.2.2 ++ end_of_tick o }

/-- Models the whole `while` loop: the oracle list stands for the
iterations the wall clock admits before browse_duration elapses.  The
loop has no handler around the tick, so a tick error ends the run. -/
def browse_loop (p : Params) (st : TickState) (os : List TickOracle) :
    Except String (TickState × List (List SchedAction)) :=
  match os with
  | [] => .ok (st, [])
  | o :: rest =>
      match browse_tick p st o with
      | .error e => .error e
      | .ok r =>
          match browse_loop p r.state rest with
          | .error e => .error e
          | .ok tail => .ok (tail.1, r.actions :: tail.2)

/-! ### handle_cognito_login (source lines 207-357)

The whole body sits inside an outer try whose handler prints a manual
prompt and sleeps 60 s, so the function never raises.  Inside, the
credential path has its own try (lines 224-349) with the same prompt
behaviour, while the post-submit navigation wait (lines 291-340) has
two inner handlers that merely log and continue, and a surrounding
handler (nav_error, line 320) that prompts only when the page still
looks like a login page. -/

/-- Oracle for one `handle_cognito_login` call: element visibility,
page state, and the outcome of each awaited operation. -/
structure LoginOracle where
  /-- wait_for_load_state at line 211 — only the outer handler guards it. -/
  initialLoad : Except String Unit
  /-- page.url after the login page loads (line 212). -/
  pageUrl : String
  /-- page.is_closed() at line 218. -/
  pageClosed : Bool
  /-- A visible username field was found (line 245). -/
  usernameField : Bool
  /-- The click/fill calls on the username field (lines 249-251). -/
  usernameFill : Except String Unit
  /-- A visible password field was found (line 262). -/
  passwordField : Bool
  /-- The click/fill calls on the password field (lines 266-268). -/
  passwordFill : Except String Unit
  /-- A visible submit button was found (line 279). -/
  submitButton : Bool
  /-- submit_button.click() at line 289. -/
  submitClick : Except String Unit
  /-- An exception raised inside the try of lines 291-339 that escapes
  the two inner handlers (caught by nav_error at line 320). -/
  navBlockError : Option String
  /-- wait_for_function at line 302 — its handler only logs. -/
  urlWait : Except String Unit
  /-- Whether page.url differs from the pre-submit URL (line 303). -/
  urlChanged : Bool
  /-- page.url after the submit attempt (lines 304, 324). -/
  currentUrlAfter : String
  /-- wait_for_load_state at line 312 — its handler only logs. -/
  loadAfterSubmit : Except String Unit
  /-- text_content of a .error-message element, when one exists
  (lines 331-333). -/
  errorElementText : Option String
  deriving Repr

/-- What a `handle_cognito_login` call produces: the console prompts it
prints, the seconds of the manual-login grace sleep it performs (the
asyncio.sleep(60) calls; the one-second form pauses are not counted),
and the log lines.  The function always returns — no error channel. -/
structure LoginResult where
  prompts : List String
  graceSleep : Nat
  log : List String
  deriving DecidableEq, Repr

/-- The post-submit block (source lines 284-340): runs once a visible
submit button was found.  `navBlockError` stands for an exception in
the try of lines 291-339 escaping the inner log-only handlers. -/
def after_submit (o : LoginOracle) : LoginResult :=
  match o.submitClick with
  | .error e =>
      { prompts := ["Login error. Please login manually within 60 seconds."]
        graceSleep := 60
        log := ["Found submit button with name: signInSubmitButton",
                "Clicking submit button",
                "Error during login process: " ++ e] }
  | .ok _ =>
      let head := ["Found submit button with name: signInSubmitButton",
                   "Clicking submit button"]
      match o.navBlockError with
      | none =>
          let urlLog :=
            match o.urlWait with
            | .error e => ["Error waiting for URL change: " ++ e]
            | .ok _ =>
                if o.urlChanged then ["URL changed to: " ++ o.currentUrlAfter]
                else ["URL did not change, but continuing..."]
          let loadLog :=
            match o.loadAfterSubmit with
            | .ok _ => ["Page content loaded"]
            | .error e => ["Load state timeout, but continuing: " ++ e]
          { prompts := []
            graceSleep := 0
            log := head ++ ["Waiting for navigation after submit..."]
                    ++ urlLog ++ loadLog
                    ++ ["Login process completed, current URL: " ++ o.currentUrlAfter] }
      | some e =>
          let navHead := head
            ++ ["Waiting for navigation after submit...",
                "Navigation error: " ++ e,
                "Current URL after submit attempt: " ++ o.currentUrlAfter]
          if strContains (str_lower o.currentUrlAfter) "login" ||
             strContains (str_lower o.currentUrlAfter) "signin" then
            match o.errorElementText with
            | some t =>
                { prompts := ["Login error: " ++ t,
                              "Login failed. Please login manually within 60 seconds."]
                  graceSleep := 60
                  log := navHead
                    ++ ["Still on login page, checking for error messages",
                        "Login error message found: " ++ t] }
            | none =>
                { prompts := ["Login failed. Please login manually within 60 seconds."]
                  graceSleep := 60
                  log := navHead
                    ++ ["Still on login page, checking for error messages"] }
          else
            { prompts := []
              graceSleep := 0
              log := navHead
                ++ ["Page URL changed but navigation event not detected"] }

/-- The credential form-fill path (source lines 224-349): the inner try
whose handler prints the login-error prompt and sleeps 60 s. -/
def fill_form (o : LoginOracle) : LoginResult :=
  let head := ["Looking for NASA Cognito-specific login elements...",
               "Checking for visible form elements (page has duplicate IDs)"]
  if !o.usernameField then
    { prompts := ["Could not find username field. Please login manually within 60 seconds."]
      graceSleep := 60
      log := head ++ ["Could not find visible username field"] }
  else
    match o.usernameFill with
    | .error e =>
        { prompts := ["Login error. Please login manually within 60 seconds."]
          graceSleep := 60
          log := head ++ ["Found visible username field",
                          "Error during login process: " ++ e] }
    | .ok _ =>
        let head := head ++ ["Found visible username field", "Filled username field"]
        if !o.passwordField then
          { prompts := ["Could not find password field. Please login manually within 60 seconds."]
            graceSleep := 60
            log := head ++ ["Could not find visible password field"] }
        else
          match o.passwordFill with
          | .error e =>
              { prompts := ["Login error. Please login manually within 60 seconds."]
                graceSleep := 60
                log := head ++ ["Found visible password field",
                                "Error during login process: " ++ e] }
          | .ok _ =>
              let head := head ++ ["Found visible password field", "Filled password field"]
              if !o.submitButton then
                { prompts := ["Could not find submit button. Please login manually within 60 seconds."]
                  graceSleep := 60
                  log := head
                    ++ ["Could not find submit button with name: signInSubmitButton"] }
              else
                let r := after_submit o
                { r with log := head ++ r.log }

/-- Models `handle_cognito_login`.  `creds` is the truthiness of the
COGNITO_USERNAME and COGNITO_PASSWORD environment values (line 214). -/
def handle_cognito_login (creds : Bool) (o : LoginOracle) : LoginResult :=
  match o.initialLoad with
  | .error e =>
      { prompts := ["Login process error. Please login manually within 60 seconds."]
        graceSleep := 60
        log := ["Outer login error: " ++ e] }
  | .ok _ =>
      let head := ["Login page loaded, URL: " ++ o.pageUrl]
      if creds then
        let head := head ++ ["Attempting automatic login with stored credentials"]
        if o.pageClosed then
          { prompts := ["Login page closed. Please login manually within 60 seconds."]
            graceSleep := 60
            log := head ++ ["Page is closed during login attempt, cannot proceed"] }
        else
          let r := fill_form o
          { r with log := head ++ r.log }
      else
        { prompts := ["Please login manually (no credentials found). Waiting 60 seconds."]
          graceSleep := 60
          log := head ++ ["No credentials available. Waiting for manual login."] }

/-! ### Concrete sample inputs used by the closed theorems below. -/

/-- Truthiness of an Except value, used to state which oracle calls
succeeded. -/
def is_ok {α : Type} (x : Except String α) : Bool :=
  match x with
  | .ok _ => true
  | .error _ => false

/-- The default configuration of the script (source lines 639-644). -/
def sampleParams : Params :=
  { url := "https://example.com"
    cookieModInterval := 120
    returnInterval := 300
    refreshInterval := 60 }

/-- A timer state with every timestamp at 0. -/
def sampleState : TickState :=
  { lastCookieMod := 0, lastReturn := 0, lastRefresh := 0 }

/-- A tick 10 seconds in: no interval has elapsed, every call succeeds,
and the page has no anchors at all. -/
def idleOracle : TickOracle :=
  { currentTime := 10
    pageUrl := "https://example.com/page"
    currentCookies := .ok []
    modifyResult := .ok ()
    returnGoto := .ok ()
    refreshReload := .ok ()
    queryLinks := .ok []
    choice := 0
    clickAndWait := .ok ()
    fallbackGoto := .ok ()
    finalReload := .ok () }

/-- Like `idleOracle`, but the unguarded context.cookies() call raises. -/
def badOracle : TickOracle :=
  { idleOracle with currentCookies := .error "Target closed" }

/-- A tick 200 seconds in: the cookie-mod interval (120 s) has elapsed. -/
def dueOracle : TickOracle :=
  { idleOracle with currentTime := 200 }

/-- A tick where the click branch runs, one anchor survives filtering,
and the click fails, forcing the direct-navigation fallback. -/
def clickFailOracle : TickOracle :=
  { idleOracle with
      queryLinks := .ok [.ok (some "/about"), .ok none,
                         .ok (some "https://google.com/maps")]
      clickAndWait := .error "click intercepted" }

/-- The tick result produced by `dueOracle`. -/
def dueResult : TickResult :=
  { state := { lastCookieMod := 200, lastReturn := 0, lastRefresh := 0 }
    actions := [SchedAction.modifyCookies]
    navTargets := []
    log := ["==== CURRENT REQUEST ====",
            "Current URL: https://example.com/page",
            "Cookies count: 0",
            "Time to modify auth cookies"] }

/-- The tick result produced by `clickFailOracle`. -/
def clickFailResult : TickResult :=
  { state := { lastCookieMod := 0, lastReturn := 0, lastRefresh := 0 }
    actions := [SchedAction.clickLink "/about"]
    navTargets := ["https://example.com/about"]
    log := ["==== CURRENT REQUEST ====",
            "Current URL: https://example.com/page",
            "Cookies count: 0",
            "Clicking link: /about",
            "Error clicking link: click intercepted"] }

/-- A login attempt in which every element is found and every fill and
click succeeds, but the post-submit load-state wait times out. -/
def happyLoginOracle : LoginOracle :=
  { initialLoad := .ok ()
    pageUrl := "https://auth.amazoncognito.com/login"
    pageClosed := false
    usernameField := true
    usernameFill := .ok ()
    passwordField := true
    passwordFill := .ok ()
    submitButton := true
    submitClick := .ok ()
    navBlockError := none
    urlWait := .ok ()
    urlChanged := true
    currentUrlAfter := "https://example.com/home"
    loadAfterSubmit := .error "Timeout 15000ms exceeded"
    errorElementText := none }

/-- A login attempt in which no visible username field exists. -/
def missingUserOracle : LoginOracle :=
  { happyLoginOracle with usernameField := false, loadAfterSubmit := .ok () }

/-! ## Theorems -/

/-- Folding the per-entry header sizes equals the accumulator plus the
sum of key length + value length + 4 over the entries. -/
theorem foldl_header_size (l : List (String × String)) (acc : Nat) :
    l.foldl (fun a kv => a + header_entry_size kv) acc
      = acc + (l.map (fun kv => kv.1.utf8ByteSize + kv.2.utf8ByteSize + 4)).sum := by
  induction l generalizing acc with
  | nil => simp
  | cons hd tl ih =>
      rw [List.foldl_cons, ih]
      simp [header_entry_size]
      omega

/-- C8: calculate_header_size returns 0 for an empty header mapping,
and for a non-empty mapping returns the sum over entries of UTF-8 key
length + UTF-8 value length + 4, plus a final 2. -/
theorem calculate_header_size_spec (headers : List (String × String)) :
    (headers = [] → calculate_header_size headers = 0) ∧
    (headers ≠ [] →
      calculate_header_size headers
        = (headers.map (fun kv => kv.1.utf8ByteSize + kv.2.utf8ByteSize + 4)).sum
            + 2) := by
  constructor
  · intro h; subst h; rfl
  · intro h
    have hne : headers.isEmpty = false := List.isEmpty_eq_false.mpr h
    simp [calculate_header_size, hne, foldl_header_size]

/-- C9: when no snapshot cookie carries an expires field,
modify_auth_cookies clears nothing, adds nothing, does not reload, and
only writes the banner and the no-cookies log lines. -/
theorem modify_auth_cookies_noop_when_no_expiry (all : List Cookie)
    (hno : ∀ c ∈ all, c.expires = none) :
    (modify_auth_cookies all).cookies = all ∧
    (modify_auth_cookies all).cleared = false ∧
    (modify_auth_cookies all).addedBatches = [] ∧
    (modify_auth_cookies all).reloaded = false ∧
    (modify_auth_cookies all).log
      = ["==== MODIFYING AUTH COOKIES ====", "No auth cookies found to modify"] := by
  have hfil : all.filter (fun c => c.expires.isSome) = [] := by
    rw [List.filter_eq_nil_iff]
    intro c hc
    simp [hno c hc]
  simp [modify_auth_cookies, hfil]

/-- Witness for C9 at a one-cookie snapshot without an expires field. -/
theorem modify_auth_cookies_noop_witness :
    (modify_auth_cookies [{ name := "k", expires := none, rest := [] }]).cookies
        = [{ name := "k", expires := none, rest := [] }] ∧
    (modify_auth_cookies [{ name := "k", expires := none, rest := [] }]).cleared
        = false ∧
    (modify_auth_cookies [{ name := "k", expires := none, rest := [] }]).addedBatches
        = [] ∧
    (modify_auth_cookies [{ name := "k", expires := none, rest := [] }]).reloaded
        = false ∧
    (modify_auth_cookies [{ name := "k", expires := none, rest := [] }]).log
      = ["==== MODIFYING AUTH COOKIES ====", "No auth cookies found to modify"] :=
  modify_auth_cookies_noop_when_no_expiry
    [{ name := "k", expires := none, rest := [] }] (by decide)

/-- C1 counterexample: with two snapshot cookies of the same name, one
carrying expires and one not, the expiry-free cookie belongs to the set
the claim describes but is NOT among the cookies the code re-adds (the
keep filter drops every cookie whose name matches a modified name). -/
theorem modify_auth_cookies_name_collision_cex :
    ({ name := "sid", expires := none, rest := [] } : Cookie)
        ∈ spec_readded
            [{ name := "sid", expires := some 5, rest := [] },
             { name := "sid", expires := none, rest := [] }] ∧
    ({ name := "sid", expires := none, rest := [] } : Cookie)
        ∉ (modify_auth_cookies
            [{ name := "sid", expires := some 5, rest := [] },
             { name := "sid", expires := none, rest := [] }]).cookies := by
  decide

/-- Membership test used by the keep filter: a name is contained in the
modified-name list exactly when some snapshot cookie with an expires
field has that name. -/
theorem mem_modify_names (all : List Cookie) (n : String) :
    (((all.filter (fun c => c.expires.isSome)).map zero_expires).map
        (fun c => c.name)).contains n = true ↔
      ∃ d ∈ all, d.expires.isSome = true ∧ d.name = n := by
  constructor
  · intro hcon
    rw [List.contains_iff_exists_mem_beq] at hcon
    obtain ⟨m, hm, hbeq⟩ := hcon
    have hnm : n = m := by simpa using hbeq
    obtain ⟨c2, hc2, hname⟩ := List.mem_map.mp hm
    obtain ⟨d, hd, hzd⟩ := List.mem_map.mp hc2
    obtain ⟨hdall, hds⟩ := List.mem_filter.mp hd
    refine ⟨d, hdall, hds, ?_⟩
    rw [← hzd] at hname
    simpa [zero_expires] using hname.trans hnm.symm
  · rintro ⟨d, hd, hds, hdn⟩
    rw [List.contains_iff_exists_mem_beq]
    refine ⟨n, ?_, by simp⟩
    refine List.mem_map.mpr
      ⟨zero_expires d, List.mem_map.mpr
        ⟨d, List.mem_filter.mpr ⟨hd, hds⟩, rfl⟩, ?_⟩
    simpa [zero_expires] using hdn

/-- C1 (amended): when no expiry-free snapshot cookie shares a name with
an expiry-carrying one, the cookies re-added by modify_auth_cookies are
exactly the expiry-free snapshot cookies unchanged followed by the
zeroed copies of the expiry-carrying ones; and every re-added cookie is
a snapshot cookie or a zeroed copy of a snapshot cookie. -/
theorem modify_auth_cookies_readds_amended (all : List Cookie)
    (hdisj : ∀ c ∈ all, c.expires = none →
      ∀ d ∈ all, d.expires.isSome = true → c.name ≠ d.name) :
    (modify_auth_cookies all).cookies = spec_readded all ∧
    ∀ c ∈ (modify_auth_cookies all).cookies,
      c ∈ all ∨ ∃ d, d ∈ all ∧ d.expires.isSome = true ∧ c = zero_expires d := by
  have hkeep :
      all.filter (fun c =>
        !((((all.filter (fun c => c.expires.isSome)).map zero_expires).map
            (fun c => c.name)).contains c.name))
        = all.filter (fun c => c.expires.isNone) := by
    apply List.filter_congr
    intro c hc
    cases hcase : c.expires with
    | none =>
        have hnc :
            (((all.filter (fun c => c.expires.isSome)).map zero_expires).map
              (fun c => c.name)).contains c.name = false := by
          rw [Bool.eq_false_iff]
          intro hcon
          obtain ⟨d, hd, hds, hdn⟩ := (mem_modify_names all c.name).mp hcon
          exact hdisj c hc hcase d hd hds hdn.symm
        rw [hnc]
        rfl
    | some v =>
        have hcon :
            (((all.filter (fun c => c.expires.isSome)).map zero_expires).map
              (fun c => c.name)).contains c.name = true := by
          rw [mem_modify_names]
          exact ⟨c, hc, by simp [hcase], rfl⟩
        rw [hcon]
        rfl
  by_cases hfe : all.filter (fun c => c.expires.isSome) = []
  · have hall : ∀ c ∈ all, c.expires.isNone = true := by
      intro c hc
      have := List.filter_eq_nil_iff.mp hfe c hc
      simpa [Option.isNone_iff_eq_none, Option.not_isSome_iff_eq_none] using this
    constructor
    · simp [modify_auth_cookies, hfe, spec_readded, List.filter_eq_self.mpr hall]
    · intro c hcmem
      left
      simpa [modify_auth_cookies, hfe] using hcmem
  · have hne : ((all.filter (fun c => c.expires.isSome)).map zero_expires).isEmpty
        = false := by
      rw [List.isEmpty_eq_false]
      simp [hfe]
    constructor
    · simp only [modify_auth_cookies, hne, if_neg, Bool.false_eq_true,
        not_false_iff, if_false, spec_readded]
      rw [hkeep]
    · intro c hcmem
      simp only [modify_auth_cookies, hne, Bool.false_eq_true, if_false,
        List.mem_append] at hcmem
      rcases hcmem with hk | hm
      · exact Or.inl (List.mem_filter.mp hk).1
      · right
        obtain ⟨d, hd, rfl⟩ := List.mem_map.mp hm
        exact ⟨d, (List.mem_filter.mp hd).1, (List.mem_filter.mp hd).2, rfl⟩

/-- Witness for the amended C1 at a snapshot with distinct names. -/
theorem modify_auth_cookies_readds_witness :
    (modify_auth_cookies
        [{ name := "a", expires := some 3, rest := [] },
         { name := "b", expires := none, rest := [] }]).cookies
      = spec_readded
          [{ name := "a", expires := some 3, rest := [] },
           { name := "b", expires := none, rest := [] }] ∧
    ∀ c ∈ (modify_auth_cookies
        [{ name := "a", expires := some 3, rest := [] },
         { name := "b", expires := none, rest := [] }]).cookies,
      c ∈ [{ name := "a", expires := some 3, rest := [] },
           { name := "b", expires := none, rest := [] }] ∨
        ∃ d, d ∈ [{ name := "a", expires := some 3, rest := [] },
                  { name := "b", expires := none, rest := [] }] ∧
          d.expires.isSome = true ∧ c = zero_expires d :=
  modify_auth_cookies_readds_amended
    [{ name := "a", expires := some 3, rest := [] },
     { name := "b", expires := none, rest := [] }] (by decide)

/-- The filter condition on a present href unfolds to: non-empty and no
blocklisted word occurs in the lower-cased text. -/
theorem link_kept_iff (h : String) :
    link_kept (some h) = true ↔
      h ≠ "" ∧ ∀ w ∈ bad_link_words, strContains (str_lower h) w = false := by
  constructor
  · intro hk
    rw [link_kept, Bool.and_eq_true] at hk
    obtain ⟨hne, hbad⟩ := hk
    refine ⟨by simpa using hne, ?_⟩
    intro w hw
    rw [Bool.not_eq_true'] at hbad
    by_contra hcon
    rw [Bool.not_eq_false] at hcon
    have : bad_link_words.any (fun w => strContains (str_lower h) w) = true :=
      List.any_eq_true.mpr ⟨w, hw, hcon⟩
    rw [this] at hbad
    exact absurd hbad (by decide)
  · rintro ⟨hne, hw⟩
    rw [link_kept, Bool.and_eq_true]
    refine ⟨by simpa using hne, ?_⟩
    rw [Bool.not_eq_true']
    by_contra hcon
    rw [Bool.not_eq_false] at hcon
    obtain ⟨w, hwmem, hwc⟩ := List.any_eq_true.mp hcon
    rw [hw w hwmem] at hwc
    exact absurd hwc (by decide)

/-- Membership in the filtered link list: the href appears among the
anchors and passes the filter. -/
theorem mem_filtered_links (hrefs : List (Option String)) (h : String) :
    h ∈ filtered_links hrefs ↔ some h ∈ hrefs ∧ link_kept (some h) = true := by
  induction hrefs with
  | nil => simp [filtered_links]
  | cons x rest ih =>
    cases x with
    | none =>
        rw [filtered_links, ih]
        simp
    | some s =>
        by_cases hk : link_kept (some s) = true
        · rw [filtered_links, if_pos hk]
          constructor
          · intro hmem
            rcases List.mem_cons.mp hmem with rfl | hmem2
            · exact ⟨List.mem_cons_self _ _, hk⟩
            · obtain ⟨hm, hkh⟩ := ih.mp hmem2
              exact ⟨List.mem_cons_of_mem _ hm, hkh⟩
          · rintro ⟨hmem, hkh⟩
            rcases List.mem_cons.mp hmem with heq | hmem2
            · have : h = s := Option.some.inj heq
              subst this
              exact List.mem_cons_self _ _
            · exact List.mem_cons_of_mem _ (ih.mpr ⟨hmem2, hkh⟩)
        · rw [filtered_links, if_neg hk, ih]
          constructor
          · rintro ⟨hmem, hkh⟩
            exact ⟨List.mem_cons_of_mem _ hmem, hkh⟩
          · rintro ⟨hmem, hkh⟩
            rcases List.mem_cons.mp hmem with heq | hmem2
            · have : h = s := Option.some.inj heq
              subst this
              exact absurd hkh hk
            · exact ⟨hmem2, hkh⟩

/-- C4: a link is retained by the filter exactly when its href is
present, non-empty and, for every blocklisted word, the lower-cased
href does not contain that word; consequently any href containing a
blocklisted word after lower-casing is excluded. -/
theorem filtered_links_characterization (hrefs : List (Option String)) (h : String) :
    (h ∈ filtered_links hrefs ↔
      some h ∈ hrefs ∧ h ≠ "" ∧
        ∀ w ∈ bad_link_words, strContains (str_lower h) w = false) ∧
    (∀ w ∈ bad_link_words, strContains (str_lower h) w = true →
      h ∉ filtered_links hrefs) := by
  have main : h ∈ filtered_links hrefs ↔
      some h ∈ hrefs ∧ h ≠ "" ∧
        ∀ w ∈ bad_link_words, strContains (str_lower h) w = false := by
    rw [mem_filtered_links, link_kept_iff]
  refine ⟨main, ?_⟩
  intro w hw hcon hmem
  have := (main.mp hmem).2.2 w hw
  rw [hcon] at this
  exact absurd this (by decide)

/-- C5 counterexample: the session-complete message contains none of
the navigation/URL indicator substrings, yet log_message prints it to
the console (through the elif branch at source line 85). -/
theorem log_message_console_cex :
    url_indicators.any
        (fun ind => strContains "\n==== BROWSING SESSION COMPLETE ====" ind)
      = false ∧
    (log_message "2025-01-01 00:00:00"
        "\n==== BROWSING SESSION COMPLETE ====").2 ≠ [] := by
  decide

/-- C5 (amended): log_message appends every message to the log file,
and prints to the console exactly the messages that contain a
navigation/URL indicator substring, the session-complete banner, or the
substring Starting-with-a-trailing-blank. -/
theorem log_message_console_amended (ts m : String) :
    (log_message ts m).1 = ["[" ++ ts ++ "] " ++ m] ∧
    ((log_message ts m).2 ≠ [] ↔
      (url_indicators.any (fun ind => strContains m ind)
        || strContains m "==== BROWSING SESSION COMPLETE ===="
        || strContains m "Starting ") = true) := by
  refine ⟨rfl, ?_⟩
  by_cases hany : url_indicators.any (fun ind => strContains m ind) = true
  · have hsome : (url_indicators.find? (fun ind => strContains m ind)).isSome := by
      rw [List.find?_isSome]
      obtain ⟨x, hx, hpx⟩ := List.any_eq_true.mp hany
      exact ⟨x, hx, hpx⟩
    obtain ⟨ind, hind⟩ := Option.isSome_iff_exists.mp hsome
    simp [log_message, hany, hind]
  · have hf : url_indicators.any (fun ind => strContains m ind) = false :=
      Bool.not_eq_true _ |>.mp hany
    by_cases hrest : (strContains m "==== BROWSING SESSION COMPLETE ===="
        || strContains m "Starting ") = true
    · simp [log_message, hf, hrest]
    · have hrf : (strContains m "==== BROWSING SESSION COMPLETE ===="
          || strContains m "Starting ") = false :=
        Bool.not_eq_true _ |>.mp hrest
      simp [log_message, hf, hrf]

/-- C6: when the filtered link list is non-empty and the drawn index is
within the randint bound min 9 (n-1), the index is in range, below ten,
and any click the branch performs targets one of the first ten filtered
links. -/
theorem browse_tick_click_index_in_range
    (filtered : List String) (choice : Nat)
    (hne : filtered ≠ [])
    (hch : choice ≤ min 9 (filtered.length - 1)) :
    choice < filtered.length ∧ choice < 10 ∧
    ∀ (url : String) (clickR fbR : Except String Unit),
      ∀ a ∈ (click_branch url filtered choice clickR fbR).1,
        ∃ href ∈ filtered.take 10, a = SchedAction.clickLink href := by
  have hpos : 0 < filtered.length := List.length_pos.mpr hne
  have h1 : choice < filtered.length := by
    have := Nat.min_le_right 9 (filtered.length - 1)
    omega
  have h2 : choice < 10 := by
    have := Nat.min_le_left 9 (filtered.length - 1)
    omega
  refine ⟨h1, h2, ?_⟩
  intro url clickR fbR a ha
  have hie : filtered.isEmpty = false := List.isEmpty_eq_false.mpr hne
  have hgd : filtered.getD choice "" = filtered[choice] :=
    List.getD_eq_getElem filtered "" h1
  have hlt : choice < (filtered.take 10).length := by
    rw [List.length_take]
    omega
  have hmem10 : filtered[choice] ∈ filtered.take 10 := by
    have heq := @List.getElem_take String filtered 10 choice hlt
    rw [← heq]
    exact List.getElem_mem hlt
  simp only [click_branch, hie, Bool.false_eq_true, if_false] at ha
  by_cases hcond : (filtered.getD choice "" != ""
      && !(starts_with (filtered.getD choice "") "#")
      && !(starts_with (filtered.getD choice "") "javascript:")) = true
  · cases clickR with
    | ok u =>
        simp only [hcond, if_pos] at ha
        rcases List.mem_cons.mp ha with rfl | habs
        · exact ⟨filtered[choice], hmem10, by rw [hgd]⟩
        · simp at habs
    | error e =>
        cases fbR with
        | ok u =>
            simp only [hcond, if_pos] at ha
            rcases List.mem_cons.mp ha with rfl | habs
            · exact ⟨filtered[choice], hmem10, by rw [hgd]⟩
            · simp at habs
        | error e2 =>
            simp only [hcond, if_pos] at ha
            rcases List.mem_cons.mp ha with rfl | habs
            · exact ⟨filtered[choice], hmem10, by rw [hgd]⟩
            · simp at habs
  · rw [if_neg hcond] at ha
    simp at ha

/-- Witness for C6 at a one-link list and index zero. -/
theorem browse_tick_click_index_witness :
    (0 : Nat) < (["/about"] : List String).length ∧ (0 : Nat) < 10 ∧
    ∀ (url : String) (clickR fbR : Except String Unit),
      ∀ a ∈ (click_branch url ["/about"] 0 clickR fbR).1,
        ∃ href ∈ (["/about"] : List String).take 10,
          a = SchedAction.clickLink href :=
  browse_tick_click_index_in_range ["/about"] 0 (by decide) (by decide)

/-- The click branch performs either no action or exactly one click. -/
theorem click_branch_actions (url : String) (filtered : List String)
    (choice : Nat) (c f : Except String Unit) :
    (click_branch url filtered choice c f).1 = [] ∨
    ∃ href, (click_branch url filtered choice c f).1
        = [SchedAction.clickLink href] := by
  by_cases hie : filtered.isEmpty = true
  · left
    simp only [click_branch]
    rw [if_pos hie]
  · by_cases hcond : (filtered.getD choice "" != ""
        && !(starts_with (filtered.getD choice "") "#")
        && !(starts_with (filtered.getD choice "") "javascript:")) = true
    · right
      refine ⟨filtered.getD choice "", ?_⟩
      simp only [click_branch]
      rw [if_neg hie, if_pos hcond]
      cases c with
      | ok u => rfl
      | error e => cases f <;> rfl
    · left
      simp only [click_branch]
      rw [if_neg hie, if_neg hcond]

/-- C2 counterexample: a tick on which no interval has elapsed and the
page has no anchors performs zero scheduler actions, not exactly one. -/
theorem browse_tick_zero_actions_cex :
    (browse_tick sampleParams sampleState idleOracle).map
        (fun r => r.actions) = .ok [] := by
  rfl

/-- C2 (amended): every successful tick performs at most one scheduler
action, chosen by strict priority over the elapsed-time thresholds; the
click branch performs one click when a suitable link is chosen and
nothing otherwise. -/
theorem browse_tick_priority_amended (p : Params) (st : TickState)
    (o : TickOracle) (r : TickResult)
    (hok : browse_tick p st o = .ok r) :
    r.actions.length ≤ 1 ∧
    (o.currentTime - st.lastCookieMod ≥ p.cookieModInterval →
      r.actions = [SchedAction.modifyCookies]) ∧
    (o.currentTime - st.lastCookieMod < p.cookieModInterval →
      o.currentTime - st.lastReturn ≥ p.returnInterval →
      r.actions = [SchedAction.returnToStart]) ∧
    (o.currentTime - st.lastCookieMod < p.cookieModInterval →
      o.currentTime - st.lastReturn < p.returnInterval →
      o.currentTime - st.lastRefresh ≥ p.refreshInterval →
      r.actions = [SchedAction.refreshPage]) ∧
    (o.currentTime - st.lastCookieMod < p.cookieModInterval →
      o.currentTime - st.lastReturn < p.returnInterval →
      o.currentTime - st.lastRefresh < p.refreshInterval →
      ∀ a ∈ r.actions, ∃ href, a = SchedAction.clickLink href) := by
  cases hcc : o.currentCookies with
  | error e =>
      simp only [browse_tick, hcc] at hok
      exact absurd hok (by simp)
  | ok cs =>
      simp only [browse_tick, hcc] at hok
      by_cases h1 : o.currentTime - st.lastCookieMod ≥ p.cookieModInterval
      · rw [if_pos h1] at hok
        rw [Except.ok.injEq] at hok
        subst hok
        refine ⟨by simp, fun _ => rfl, ?_, ?_, ?_⟩
        · intro hlt _
          exact absurd h1 (not_le.mpr hlt)
        · intro hlt _ _
          exact absurd h1 (not_le.mpr hlt)
        · intro hlt _ _
          exact absurd h1 (not_le.mpr hlt)
      · rw [if_neg h1] at hok
        by_cases h2 : o.currentTime - st.lastReturn ≥ p.returnInterval
        · rw [if_pos h2] at hok
          rw [Except.ok.injEq] at hok
          subst hok
          refine ⟨by simp, ?_, fun _ _ => rfl, ?_, ?_⟩
          · intro hge
            exact absurd hge h1
          · intro _ hlt _
            exact absurd h2 (not_le.mpr hlt)
          · intro _ hlt _
            exact absurd h2 (not_le.mpr hlt)
        · rw [if_neg h2] at hok
          by_cases h3 : o.currentTime - st.lastRefresh ≥ p.refreshInterval
          · rw [if_pos h3] at hok
            rw [Except.ok.injEq] at hok
            subst hok
            refine ⟨by simp, ?_, ?_, fun _ _ _ => rfl, ?_⟩
            · intro hge
              exact absurd hge h1
            · intro _ hge
              exact absurd hge h2
            · intro _ _ hlt
              exact absurd h3 (not_le.mpr hlt)
          · rw [if_neg h3] at hok
            cases hql : o.queryLinks with
            | error e =>
                simp only [hql] at hok
                exact absurd hok (by simp)
            | ok raw =>
                simp only [hql] at hok
                by_cases hre : raw.isEmpty = true
                · rw [if_pos hre] at hok
                  rw [Except.ok.injEq] at hok
                  subst hok
                  refine ⟨by simp, ?_, ?_, ?_, ?_⟩
                  · intro hge
                    exact absurd hge h1
                  · intro _ hge
                    exact absurd hge h2
                  · intro _ _ hge
                    exact absurd hge h3
                  · intro _ _ _ a ha
                    simp at ha
                · rw [if_neg hre] at hok
                  cases hgh : get_hrefs raw with
                  | error e =>
                      simp only [hgh] at hok
                      exact absurd hok (by simp)
                  | ok hrefs =>
                      simp only [hgh] at hok
                      rw [Except.ok.injEq] at hok
                      subst hok
                      rcases click_branch_actions p.url (filtered_links hrefs)
                          o.choice o.clickAndWait o.fallbackGoto with
                        hnil | ⟨href, hone⟩
                      · refine ⟨by simp [hnil], ?_, ?_, ?_, ?_⟩
                        · intro hge
                          exact absurd hge h1
                        · intro _ hge
                          exact absurd hge h2
                        · intro _ _ hge
                          exact absurd hge h3
                        · intro _ _ _ a ha
                          simp only [hnil] at ha
                          simp at ha
                      · refine ⟨by simp [hone], ?_, ?_, ?_, ?_⟩
                        · intro hge
                          exact absurd hge h1
                        · intro _ hge
                          exact absurd hge h2
                        · intro _ _ hge
                          exact absurd hge h3
                        · intro _ _ _ a ha
                          simp only [hone] at ha
                          rcases List.mem_cons.mp ha with rfl | habs
                          · exact ⟨href, rfl⟩
                          · simp at habs

/-- Witness for the amended C2: with the cookie-mod interval elapsed,
the tick performs exactly the modify-cookies action. -/
theorem browse_tick_priority_witness :
    (browse_tick sampleParams sampleState dueOracle).map
        (fun r => r.actions) = .ok [SchedAction.modifyCookies] := by
  have hok : browse_tick sampleParams sampleState dueOracle = .ok dueResult := rfl
  have h := (browse_tick_priority_amended sampleParams sampleState dueOracle
      dueResult hok).2.1 (by decide)
  rw [hok]
  exact congrArg Except.ok h

/-- When every per-anchor attribute read succeeds, the href collection
succeeds. -/
theorem get_hrefs_ok (raw : List (Except String (Option String)))
    (h : ∀ x ∈ raw, is_ok x = true) :
    ∃ hs, get_hrefs raw = .ok hs := by
  induction raw with
  | nil => exact ⟨[], rfl⟩
  | cons x rest ih =>
      have hx := h x (List.mem_cons_self _ _)
      cases x with
      | error e => simp [is_ok] at hx
      | ok v =>
          obtain ⟨hs, hhs⟩ := ih (fun y hy => h y (List.mem_cons_of_mem _ hy))
          refine ⟨v :: hs, ?_⟩
          simp only [get_hrefs, hhs]

/-- A tick whose unguarded calls (cookie snapshot, anchor query,
attribute reads) succeed always returns a result: every other failure
is swallowed by a handler. -/
theorem browse_tick_isOk (p : Params) (st : TickState) (o : TickOracle)
    (h1 : is_ok o.currentCookies = true)
    (h2 : is_ok o.queryLinks = true)
    (h3 : ∀ raw, o.queryLinks = .ok raw → ∀ x ∈ raw, is_ok x = true) :
    ∃ r, browse_tick p st o = .ok r := by
  cases hcc : o.currentCookies with
  | error e =>
      rw [hcc] at h1
      simp [is_ok] at h1
  | ok cs =>
      simp only [browse_tick, hcc]
      by_cases hb1 : o.currentTime - st.lastCookieMod ≥ p.cookieModInterval
      · rw [if_pos hb1]
        exact ⟨_, rfl⟩
      · rw [if_neg hb1]
        by_cases hb2 : o.currentTime - st.lastReturn ≥ p.returnInterval
        · rw [if_pos hb2]
          exact ⟨_, rfl⟩
        · rw [if_neg hb2]
          by_cases hb3 : o.currentTime - st.lastRefresh ≥ p.refreshInterval
          · rw [if_pos hb3]
            exact ⟨_, rfl⟩
          · rw [if_neg hb3]
            cases hql : o.queryLinks with
            | error e =>
                rw [hql] at h2
                simp [is_ok] at h2
            | ok raw =>
                simp only []
                by_cases hre : raw.isEmpty = true
                · rw [if_pos hre]
                  exact ⟨_, rfl⟩
                · rw [if_neg hre]
                  obtain ⟨hs, hhs⟩ := get_hrefs_ok raw (h3 raw hql)
                  simp only [hhs]
                  exact ⟨_, rfl⟩

/-- C3 counterexample: an exception from the unguarded context.cookies()
call on the first iteration terminates the whole loop; the second
iteration never runs. -/
theorem browse_loop_unguarded_error_cex :
    browse_loop sampleParams sampleState [badOracle, idleOracle]
      = .error "Target closed" := by
  rfl

/-- C3 (amended): when the unguarded browser reads of every iteration
succeed, the loop swallows all other failures and completes every
iteration; an exception from an unguarded read, however, propagates and
ends the loop early. -/
theorem browse_loop_continues_amended (p : Params) (st : TickState)
    (os : List TickOracle)
    (hgood : ∀ o ∈ os, is_ok o.currentCookies = true ∧
      is_ok o.queryLinks = true ∧
      ∀ raw, o.queryLinks = .ok raw → ∀ x ∈ raw, is_ok x = true) :
    ∃ final acts, browse_loop p st os = .ok (final, acts) ∧
      acts.length = os.length := by
  induction os generalizing st with
  | nil => exact ⟨st, [], rfl, rfl⟩
  | cons o rest ih =>
      obtain ⟨ho1, ho2, ho3⟩ := hgood o (List.mem_cons_self _ _)
      obtain ⟨r, hr⟩ := browse_tick_isOk p st o ho1 ho2 ho3
      obtain ⟨final, acts, hloop, hlen⟩ :=
        ih r.state (fun o2 hm => hgood o2 (List.mem_cons_of_mem _ hm))
      refine ⟨final, r.actions :: acts, ?_, by simp [hlen]⟩
      simp only [browse_loop, hr, hloop]

/-- Witness for the amended C3: two iterations with healthy unguarded
reads both complete. -/
theorem browse_loop_continues_witness :
    ∃ final acts,
      browse_loop sampleParams sampleState [idleOracle, dueOracle]
        = .ok (final, acts) ∧
      acts.length = [idleOracle, dueOracle].length :=
  browse_loop_continues_amended sampleParams sampleState [idleOracle, dueOracle]
    (by
      intro o ho
      have hcases : o = idleOracle ∨ o = dueOracle := by simpa using ho
      rcases hcases with rfl | rfl <;>
        · refine ⟨rfl, rfl, ?_⟩
          intro raw hraw x hx
          have hinj : ([] : List (Except String (Option String))) = raw :=
            Except.ok.inj hraw
          rw [← hinj] at hx
          simp at hx)

/-- C10: when the click branch runs, the chosen href passes the checks,
and the click fails, the tick performs exactly one direct navigation,
whose target is built from the START URL parameter (for arbitrary
current page URL in the oracle): the href verbatim when it starts with
http, else the start URL with all trailing slashes stripped, a slash,
and the href with all leading slashes stripped. -/
theorem full_url_resolves_against_start
    (p : Params) (st : TickState) (o : TickOracle) (r : TickResult)
    (raw : List (Except String (Option String))) (hs : List (Option String))
    (e : String)
    (h1 : o.currentTime - st.lastCookieMod < p.cookieModInterval)
    (h2 : o.currentTime - st.lastReturn < p.returnInterval)
    (h3 : o.currentTime - st.lastRefresh < p.refreshInterval)
    (hql : o.queryLinks = .ok raw) (hraw : raw.isEmpty = false)
    (hgh : get_hrefs raw = .ok hs)
    (hclick : o.clickAndWait = .error e)
    (hcond : ((filtered_links hs).getD o.choice "" != ""
        && !(starts_with ((filtered_links hs).getD o.choice "") "#")
        && !(starts_with ((filtered_links hs).getD o.choice "") "javascript:"))
      = true)
    (hok : browse_tick p st o = .ok r) :
    r.navTargets = [full_url p.url ((filtered_links hs).getD o.choice "")] ∧
    (∀ href : String, starts_with href "http" = true →
      full_url p.url href = href) ∧
    (∀ href : String, starts_with href "http" = false →
      full_url p.url href
        = rstrip_slash p.url ++ "/" ++ lstrip_slash href) := by
  have hfne : ¬(filtered_links hs).isEmpty = true := by
    intro hh
    have hnil : filtered_links hs = [] := List.isEmpty_iff.mp hh
    rw [hnil] at hcond
    simp at hcond
  cases hcc : o.currentCookies with
  | error ec =>
      simp only [browse_tick, hcc] at hok
      exact absurd hok (by simp)
  | ok cs =>
      simp only [browse_tick, hcc] at hok
      rw [if_neg (not_le.mpr h1), if_neg (not_le.mpr h2),
          if_neg (not_le.mpr h3)] at hok
      simp only [hql] at hok
      rw [if_neg (by rw [hraw]; exact Bool.false_ne_true)] at hok
      simp only [hgh] at hok
      rw [Except.ok.injEq] at hok
      subst hok
      refine ⟨?_, ?_, ?_⟩
      · show (click_branch p.url (filtered_links hs) o.choice
            o.clickAndWait o.fallbackGoto).2.1 = _
        simp only [click_branch]
        rw [if_neg hfne, if_pos hcond, hclick]
        cases o.fallbackGoto <;> rfl
      · intro href hh
        rw [full_url, if_pos hh]
      · intro href hh
        rw [full_url, if_neg (by rw [hh]; exact Bool.false_ne_true)]

/-- Witness for C10 at a concrete failing click on a relative href. -/
theorem full_url_resolves_witness :
    clickFailResult.navTargets
      = [full_url sampleParams.url
          ((filtered_links
              [some "/about", none, some "https://google.com/maps"]).getD 0 "")] ∧
    (∀ href : String, starts_with href "http" = true →
      full_url sampleParams.url href = href) ∧
    (∀ href : String, starts_with href "http" = false →
      full_url sampleParams.url href
        = rstrip_slash sampleParams.url ++ "/" ++ lstrip_slash href) :=
  full_url_resolves_against_start sampleParams sampleState clickFailOracle
    clickFailResult
    [.ok (some "/about"), .ok none, .ok (some "https://google.com/maps")]
    [some "/about", none, some "https://google.com/maps"]
    "click intercepted"
    (by decide) (by decide) (by decide) rfl rfl rfl rfl (by decide) rfl

/-- C7 counterexample: a scripted login in which the post-submit
load-state wait raises a timeout completes with no manual-login prompt
and no 60-second sleep — the exception is logged and swallowed. -/
theorem handle_cognito_login_swallowed_timeout_cex :
    is_ok happyLoginOracle.loadAfterSubmit = false ∧
    (handle_cognito_login true happyLoginOracle).prompts = [] ∧
    (handle_cognito_login true happyLoginOracle).graceSleep = 0 :=
  ⟨rfl, rfl, rfl⟩

/-- C7 (amended): a missing visible username, password or submit
element, absent credentials, a closed page, a failed initial load, a
failed fill or submit click each produce a manual-login prompt and a
60-second grace sleep; but exceptions caught by the post-submit
log-only handlers produce neither. -/
theorem handle_cognito_login_prompt_amended (creds : Bool) (o : LoginOracle) :
    (is_ok o.initialLoad = false →
      (handle_cognito_login creds o).prompts ≠ [] ∧
      (handle_cognito_login creds o).graceSleep = 60) ∧
    (is_ok o.initialLoad = true → creds = false →
      (handle_cognito_login creds o).prompts ≠ [] ∧
      (handle_cognito_login creds o).graceSleep = 60) ∧
    (is_ok o.initialLoad = true → creds = true → o.pageClosed = true →
      (handle_cognito_login creds o).prompts ≠ [] ∧
      (handle_cognito_login creds o).graceSleep = 60) ∧
    (is_ok o.initialLoad = true → creds = true → o.pageClosed = false →
      o.usernameField = false →
      (handle_cognito_login creds o).prompts ≠ [] ∧
      (handle_cognito_login creds o).graceSleep = 60) ∧
    (is_ok o.initialLoad = true → creds = true → o.pageClosed = false →
      o.usernameField = true → is_ok o.usernameFill = false →
      (handle_cognito_login creds o).prompts ≠ [] ∧
      (handle_cognito_login creds o).graceSleep = 60) ∧
    (is_ok o.initialLoad = true → creds = true → o.pageClosed = false →
      o.usernameField = true → is_ok o.usernameFill = true →
      o.passwordField = false →
      (handle_cognito_login creds o).prompts ≠ [] ∧
      (handle_cognito_login creds o).graceSleep = 60) ∧
    (is_ok o.initialLoad = true → creds = true → o.pageClosed = false →
      o.usernameField = true → is_ok o.usernameFill = true →
      o.passwordField = true → is_ok o.passwordFill = false →
      (handle_cognito_login creds o).prompts ≠ [] ∧
      (handle_cognito_login creds o).graceSleep = 60) ∧
    (is_ok o.initialLoad = true → creds = true → o.pageClosed = false →
      o.usernameField = true → is_ok o.usernameFill = true →
      o.passwordField = true → is_ok o.passwordFill = true →
      o.submitButton = false →
      (handle_cognito_login creds o).prompts ≠ [] ∧
      (handle_cognito_login creds o).graceSleep = 60) ∧
    (is_ok o.initialLoad = true → creds = true → o.pageClosed = false →
      o.usernameField = true → is_ok o.usernameFill = true →
      o.passwordField = true → is_ok o.passwordFill = true →
      o.submitButton = true → is_ok o.submitClick = false →
      (handle_cognito_login creds o).prompts ≠ [] ∧
      (handle_cognito_login creds o).graceSleep = 60) ∧
    (is_ok o.initialLoad = true → creds = true → o.pageClosed = false →
      o.usernameField = true → is_ok o.usernameFill = true →
      o.passwordField = true → is_ok o.passwordFill = true →
      o.submitButton = true → is_ok o.submitClick = true →
      o.navBlockError = none →
      (handle_cognito_login creds o).prompts = [] ∧
      (handle_cognito_login creds o).graceSleep = 0) := by
  refine ⟨?_, ?_, ?_, ?_, ?_, ?_, ?_, ?_, ?_, ?_⟩
  · intro h
    cases hini : o.initialLoad with
    | ok u => rw [hini] at h; simp [is_ok] at h
    | error e => simp [handle_cognito_login, hini]
  · intro h hcr
    subst hcr
    cases hini : o.initialLoad with
    | error e => rw [hini] at h; simp [is_ok] at h
    | ok u => simp [handle_cognito_login, hini]
  · intro h hcr hclosed
    subst hcr
    cases hini : o.initialLoad with
    | error e => rw [hini] at h; simp [is_ok] at h
    | ok u => simp [handle_cognito_login, hini, hclosed]
  · intro h hcr hnc hus
    subst hcr
    cases hini : o.initialLoad with
    | error e => rw [hini] at h; simp [is_ok] at h
    | ok u => simp [handle_cognito_login, fill_form, hini, hnc, hus]
  · intro h hcr hnc hus hfill
    subst hcr
    cases hini : o.initialLoad with
    | error e => rw [hini] at h; simp [is_ok] at h
    | ok u =>
        cases hf : o.usernameFill with
        | ok v => rw [hf] at hfill; simp [is_ok] at hfill
        | error e2 =>
            simp [handle_cognito_login, fill_form, hini, hnc, hus, hf]
  · intro h hcr hnc hus hfill hpw
    subst hcr
    cases hini : o.initialLoad with
    | error e => rw [hini] at h; simp [is_ok] at h
    | ok u =>
        cases hf : o.usernameFill with
        | error e2 => rw [hf] at hfill; simp [is_ok] at hfill
        | ok v =>
            simp [handle_cognito_login, fill_form, hini, hnc, hus, hf, hpw]
  · intro h hcr hnc hus hfill hpw hpf
    subst hcr
    cases hini : o.initialLoad with
    | error e => rw [hini] at h; simp [is_ok] at h
    | ok u =>
        cases hf : o.usernameFill with
        | error e2 => rw [hf] at hfill; simp [is_ok] at hfill
        | ok v =>
            cases hpfc : o.passwordFill with
            | ok w => rw [hpfc] at hpf; simp [is_ok] at hpf
            | error e3 =>
                simp [handle_cognito_login, fill_form, hini, hnc, hus, hf,
                      hpw, hpfc]
  · intro h hcr hnc hus hfill hpw hpf hsb
    subst hcr
    cases hini : o.initialLoad with
    | error e => rw [hini] at h; simp [is_ok] at h
    | ok u =>
        cases hf : o.usernameFill with
        | error e2 => rw [hf] at hfill; simp [is_ok] at hfill
        | ok v =>
            cases hpfc : o.passwordFill with
            | error e3 => rw [hpfc] at hpf; simp [is_ok] at hpf
            | ok w =>
                simp [handle_cognito_login, fill_form, hini, hnc, hus, hf,
                      hpw, hpfc, hsb]
  · intro h hcr hnc hus hfill hpw hpf hsb hsc
    subst hcr
    cases hini : o.initialLoad with
    | error e => rw [hini] at h; simp [is_ok] at h
    | ok u =>
        cases hf : o.usernameFill with
        | error e2 => rw [hf] at hfill; simp [is_ok] at hfill
        | ok v =>
            cases hpfc : o.passwordFill with
            | error e3 => rw [hpfc] at hpf; simp [is_ok] at hpf
            | ok w =>
                cases hscc : o.submitClick with
                | ok x => rw [hscc] at hsc; simp [is_ok] at hsc
                | error e4 =>
                    simp [handle_cognito_login, fill_form, after_submit,
                          hini, hnc, hus, hf, hpw, hpfc, hsb, hscc]
  · intro h hcr hnc hus hfill hpw hpf hsb hsc hnav
    subst hcr
    cases hini : o.initialLoad with
    | error e => rw [hini] at h; simp [is_ok] at h
    | ok u =>
        cases hf : o.usernameFill with
        | error e2 => rw [hf] at hfill; simp [is_ok] at hfill
        | ok v =>
            cases hpfc : o.passwordFill with
            | error e3 => rw [hpfc] at hpf; simp [is_ok] at hpf
            | ok w =>
                cases hscc : o.submitClick with
                | error e4 => rw [hscc] at hsc; simp [is_ok] at hsc
                | ok x =>
                    simp [handle_cognito_login, fill_form, after_submit,
                          hini, hnc, hus, hf, hpw, hpfc, hsb, hscc, hnav]
